import Mathlib

/-!
Verification of the factory simulation engine (`FactorySimulation` in
`js/scene.js`, configuration constants in `js/config.js`).

Modelling conventions:
* JS numbers are modelled as rationals (`ℚ`); machine timestamps as `ℤ`
  (milliseconds).
* Every call to `Math.random()` is an explicit input in `[0,1)`, passed as a
  parameter (one per call site, collected in `RandDraws` for `updateSensors`).
* Timer callbacks (`setTimeout`/`setInterval` bodies) are modelled as explicit
  state-transition functions (`scenarioTimerFire`, `rampStep`,
  `gradualRestore`, `backupPowerDelayed`) that a scheduler may apply later.
* The `duration` field of the scenario record is omitted: the source writes it
  in two places but never reads it.
-/

inductive ScenarioKind
  | NONE
  | POWER_SAG
  | PRESSURE_DRIFT
  | OVERHEAT
deriving DecidableEq, Repr

inductive OpState
  | NORMAL
  | DEGRADED
  | CRITICAL
  | PAUSED
deriving DecidableEq, Repr

inductive Status
  | normal
  | warning
  | critical
deriving DecidableEq, Repr

/-- The three continuous channels (`this.sensors` in the source). -/
structure Sensors where
  power : ℚ
  pressure : ℚ
  temperature : ℚ
deriving DecidableEq, Repr

/-- The scenario record (`this.activeScenario`). -/
structure Scenario where
  type : ScenarioKind
  active : Bool
  tickCount : ℕ
deriving DecidableEq, Repr

/-- One entry of `this.sensorHistory`. -/
structure HistEntry where
  time : ℤ
  power : ℚ
  pressure : ℚ
  temperature : ℚ
  stability : ℚ
  state : OpState
deriving DecidableEq, Repr

/-- Result object returned by every operator action. -/
structure ActionResult where
  success : Bool
  message : String
deriving DecidableEq, Repr

/-- The mutable fields of a `FactorySimulation` instance, in constructor
order. -/
structure SimState where
  state : OpState
  stability : ℚ
  sensors : Sensors
  previousSensors : Sensors
  cooling : ℚ
  backupPower : Bool
  mainBatteryLevel : ℚ
  backupBatteryLevel : ℚ
  batteryRechargeRate : ℚ
  activeScenario : Scenario
  startTime : ℤ
  tickCount : ℕ
  criticalTickCount : ℕ
  stableTickCount : ℕ
  lastScenarioEndTime : ℤ
  scenarioScheduled : Bool
  sensorHistory : List HistEntry
deriving DecidableEq, Repr

namespace CONFIG

def TICK_INTERVAL : ℤ := 6000

def STARTUP_STABLE_DURATION : ℤ := 15000

def SCENARIO_DELAY : ℤ := 10000

def POWER_NOMINAL_MIN : ℚ := 38

def POWER_WARNING_LOW : ℚ := 38

def POWER_CRITICAL_LOW : ℚ := 32

def PRESSURE_NOMINAL_MIN : ℚ := 135

def PRESSURE_WARNING_LOW : ℚ := 135

def PRESSURE_CRITICAL_LOW : ℚ := 125

def TEMPERATURE_NOMINAL_MAX : ℚ := 75

def TEMPERATURE_WARNING_THRESHOLD : ℚ := 75

def TEMPERATURE_CRITICAL_THRESHOLD : ℚ := 85

def COOLING_DEFAULT : ℚ := 30

def PENALTY_WARNING : ℚ := 10

def PENALTY_CRITICAL : ℚ := 25

def PENALTY_TREND : ℚ := 5

def THRESHOLD_NORMAL : ℚ := 86

def THRESHOLD_DEGRADED : ℚ := 71

def SCENARIO_WEIGHT_POWER_SAG : ℚ := 40 / 100

def SCENARIO_WEIGHT_PRESSURE_DRIFT : ℚ := 35 / 100

def SCENARIO_WEIGHT_OVERHEAT : ℚ := 25 / 100

def MAX_DATA_POINTS : ℕ := 60

def AUTO_STOP_ENABLED : Bool := false

def AUTO_STOP_CRITICAL_TICKS : ℕ := 10

end CONFIG

/-- The `Math.random()` draws consumed by one call of `updateSensors`, each
intended to lie in `[0,1)` (no bound is needed for the clamping claim). -/
structure RandDraws where
  powerDrop : ℚ
  batteryDrain : ℚ
  pressureDrop : ℚ
  tempRise : ℚ
  powerNoise : ℚ
  tempNoise : ℚ
  pressureNoise : ℚ
deriving DecidableEq, Repr

/-- Battery-recharge phase of `updateSensors`: the inactive battery recharges
by `batteryRechargeRate`, capped at 100. -/
def rechargeBattery (s : SimState) : SimState :=
  if s.backupPower then
    if s.mainBatteryLevel < 100 then
      { s with mainBatteryLevel := min 100 (s.mainBatteryLevel + s.batteryRechargeRate) }
    else s
  else
    if s.backupBatteryLevel < 100 then
      { s with backupBatteryLevel := min 100 (s.backupBatteryLevel + s.batteryRechargeRate) }
    else s

/-- Scenario-perturbation phase of `updateSensors`: the active scenario (if
any) perturbs the one channel it targets; `POWER_SAG` also drains the active
battery, floored at 0. -/
def applyScenarioPerturbation (s : SimState) (r : RandDraws) : SimState :=
  let scenario : Option ScenarioKind :=
    if s.activeScenario.active then some s.activeScenario.type else none
  let s :=
    if scenario = some ScenarioKind.POWER_SAG then
      let drop := r.powerDrop * 4 + 2
      let s := { s with sensors := { s.sensors with power := s.sensors.power - drop } }
      let batteryDrain := r.batteryDrain * 8 + 5
      if s.backupPower then
        { s with backupBatteryLevel := max 0 (s.backupBatteryLevel - batteryDrain) }
      else
        { s with mainBatteryLevel := max 0 (s.mainBatteryLevel - batteryDrain) }
    else s
  let s :=
    if scenario = some ScenarioKind.PRESSURE_DRIFT then
      { s with sensors := { s.sensors with pressure := s.sensors.pressure - (r.pressureDrop * 3 + 2) } }
    else s
  if scenario = some ScenarioKind.OVERHEAT then
    { s with sensors := { s.sensors with temperature := s.sensors.temperature + (r.tempRise * 2 + 2) } }
  else s

/-- Ambient-noise phase of `updateSensors`: symmetric fluctuation on all three
channels every tick. -/
def applyAmbientNoise (s : SimState) (r : RandDraws) : SimState :=
  { s with sensors :=
    { power := s.sensors.power + (r.powerNoise - 1/2) * 2
      pressure := s.sensors.pressure + (r.pressureNoise - 1/2) * 2
      temperature := s.sensors.temperature + (r.tempNoise - 1/2) * 1 } }

/-- Clamping phase of `updateSensors`: clamp to hardware limits. -/
def clampSensors (s : SimState) : SimState :=
  { s with sensors :=
    { power := max 0 (min 100 s.sensors.power)
      pressure := max 100 (min 200 s.sensors.pressure)
      temperature := max 20 (min 120 s.sensors.temperature) } }

/-- `FactorySimulation.updateSensors`, phase by phase in source order. -/
def updateSensors (s : SimState) (r : RandDraws) : SimState :=
  clampSensors (applyAmbientNoise (applyScenarioPerturbation (rechargeBattery s) r) r)

/-- C1: after `updateSensors`, whatever the scenario and whatever values the
random draws took, every channel lies in its hard range: power in `[0,100]`,
pressure in `[100,200]`, temperature in `[20,120]`. -/
theorem updateSensors_clamps (s : SimState) (r : RandDraws) :
    0 ≤ (updateSensors s r).sensors.power ∧ (updateSensors s r).sensors.power ≤ 100 ∧
    100 ≤ (updateSensors s r).sensors.pressure ∧ (updateSensors s r).sensors.pressure ≤ 200 ∧
    20 ≤ (updateSensors s r).sensors.temperature ∧ (updateSensors s r).sensors.temperature ≤ 120 := by
  refine ⟨?_, ?_, ?_, ?_, ?_, ?_⟩ <;>
    simp only [updateSensors, clampSensors]
  · exact le_max_left _ _
  · exact max_le (by norm_num) (min_le_left _ _)
  · exact le_max_left _ _
  · exact max_le (by norm_num) (min_le_left _ _)
  · exact le_max_left _ _
  · exact max_le (by norm_num) (min_le_left _ _)

/-- The sensor name passed to `getSensorStatus` / `gradualRestore` (a string
in the source). -/
inductive SensorType
  | power
  | pressure
  | temperature
deriving DecidableEq, Repr

/-- Read `this.sensors[name]`. -/
def getSensor (s : Sensors) : SensorType → ℚ
  | SensorType.power => s.power
  | SensorType.pressure => s.pressure
  | SensorType.temperature => s.temperature

/-- Write `this.sensors[name] = v`. -/
def setSensor (s : Sensors) : SensorType → ℚ → Sensors
  | SensorType.power, v => { s with power := v }
  | SensorType.pressure, v => { s with pressure := v }
  | SensorType.temperature, v => { s with temperature := v }

/-- `FactorySimulation.getSensorStatus`: temperature is classified only on the
high side, power and pressure only on the low side. -/
def getSensorStatus (s : SimState) : SensorType → Status
  | SensorType.temperature =>
      if CONFIG.TEMPERATURE_CRITICAL_THRESHOLD ≤ s.sensors.temperature then Status.critical
      else if CONFIG.TEMPERATURE_WARNING_THRESHOLD ≤ s.sensors.temperature then Status.warning
      else Status.normal
  | SensorType.power =>
      if s.sensors.power ≤ CONFIG.POWER_CRITICAL_LOW then Status.critical
      else if s.sensors.power ≤ CONFIG.POWER_WARNING_LOW then Status.warning
      else Status.normal
  | SensorType.pressure =>
      if s.sensors.pressure ≤ CONFIG.PRESSURE_CRITICAL_LOW then Status.critical
      else if s.sensors.pressure ≤ CONFIG.PRESSURE_WARNING_LOW then Status.warning
      else Status.normal

/-- `FactorySimulation.calculateStability`: start at 100, subtract the warning
penalty if any channel is at warning, the critical penalty if any channel is
critical, the trend penalty if the history has at least two entries and some
channel is moving further from nominal, then clamp to `[0,100]`. -/
def calculateStability (s : SimState) : SimState :=
  let score : ℚ := 100
  let powerStatus := getSensorStatus s SensorType.power
  let pressureStatus := getSensorStatus s SensorType.pressure
  let tempStatus := getSensorStatus s SensorType.temperature
  let score :=
    if powerStatus = Status.warning ∨ pressureStatus = Status.warning ∨
        tempStatus = Status.warning then
      score - CONFIG.PENALTY_WARNING
    else score
  let score :=
    if powerStatus = Status.critical ∨ pressureStatus = Status.critical ∨
        tempStatus = Status.critical then
      score - CONFIG.PENALTY_CRITICAL
    else score
  let score :=
    if 2 ≤ s.sensorHistory.length then
      match s.sensorHistory.getLast? with
      | some prev =>
          if (s.sensors.power - prev.power < 0 ∧ s.sensors.power < CONFIG.POWER_NOMINAL_MIN) ∨
              (s.sensors.pressure - prev.pressure < 0 ∧
                s.sensors.pressure < CONFIG.PRESSURE_NOMINAL_MIN) ∨
              (0 < s.sensors.temperature - prev.temperature ∧
                CONFIG.TEMPERATURE_NOMINAL_MAX < s.sensors.temperature) then
            score - CONFIG.PENALTY_TREND
          else score
      | none => score
    else score
  { s with stability := max 0 (min 100 score) }

/-- `FactorySimulation.updateState`: map the stability score to an operating
state, unless the current state is PAUSED. -/
def updateState (s : SimState) : SimState :=
  if s.state = OpState.PAUSED then s
  else if CONFIG.THRESHOLD_NORMAL ≤ s.stability then
    { s with state := OpState.NORMAL, stableTickCount := s.stableTickCount + 1 }
  else if CONFIG.THRESHOLD_DEGRADED ≤ s.stability then
    { s with state := OpState.DEGRADED, stableTickCount := 0 }
  else
    { s with state := OpState.CRITICAL, stableTickCount := 0 }

/-- The array pick in `startRandomScenario`:
`scenarios[Math.floor(Math.random() * scenarios.length)]` with `r` the random
draw in `[0,1)` (totalized to OVERHEAT outside the last index). -/
def chooseScenario (r : ℚ) : ScenarioKind :=
  if ⌊r * 3⌋ = 0 then ScenarioKind.POWER_SAG
  else if ⌊r * 3⌋ = 1 then ScenarioKind.PRESSURE_DRIFT
  else ScenarioKind.OVERHEAT

/-- `FactorySimulation.startRandomScenario` with the random draw explicit. -/
def startRandomScenario (s : SimState) (r : ℚ) : SimState :=
  { s with activeScenario := { type := chooseScenario r, active := true, tickCount := 0 } }

/-- The weighted draw the spec describes: a discrete-weighted sampler over the
three fault kinds with the configured weights 0.40 / 0.35 / 0.25, by
cumulative thresholds on a uniform `r` in `[0,1)`. Written from the spec's
words for comparison with `chooseScenario`, which is the source behaviour. -/
def specWeightedScenarioChoice (r : ℚ) : ScenarioKind :=
  if r < CONFIG.SCENARIO_WEIGHT_POWER_SAG then ScenarioKind.POWER_SAG
  else if r < CONFIG.SCENARIO_WEIGHT_POWER_SAG + CONFIG.SCENARIO_WEIGHT_PRESSURE_DRIFT then
    ScenarioKind.PRESSURE_DRIFT
  else ScenarioKind.OVERHEAT

/-- `FactorySimulation.manageScenarios`; `elapsed` is `Date.now() - startTime`
computed by `tick`, `now` the `Date.now()` read inside the function. -/
def manageScenarios (s : SimState) (elapsed : ℤ) (now : ℤ) (r : ℚ) : SimState :=
  if elapsed < CONFIG.STARTUP_STABLE_DURATION then
    { s with stableTickCount := s.stableTickCount + 1 }
  else if s.state = OpState.PAUSED then s
  else if s.scenarioScheduled then s
  else if s.activeScenario.active = false then
    if CONFIG.SCENARIO_DELAY ≤ now - s.lastScenarioEndTime then startRandomScenario s r
    else s
  else
    { s with activeScenario :=
      { s.activeScenario with tickCount := s.activeScenario.tickCount + 1 } }

/-- `FactorySimulation.endScenarioAndScheduleNext` up to arming the delayed
timer (`scenarioScheduled := true`); the timer body is `scenarioTimerFire`. -/
def endScenarioAndScheduleNext (s : SimState) (now : ℤ) : SimState :=
  { s with
    activeScenario := { type := ScenarioKind.NONE, active := false, tickCount := 0 }
    backupPower := false
    cooling := CONFIG.COOLING_DEFAULT
    state := OpState.NORMAL
    stability := 100
    stableTickCount := 0
    criticalTickCount := 0
    lastScenarioEndTime := now
    mainBatteryLevel := 100
    backupBatteryLevel := 100
    scenarioScheduled := true }

/-- Body of the `setTimeout` armed by `endScenarioAndScheduleNext`: clear the
scheduled flag and start a random scenario, unconditionally. -/
def scenarioTimerFire (s : SimState) (r : ℚ) : SimState :=
  startRandomScenario { s with scenarioScheduled := false } r

/-- `FactorySimulation.pauseLine`. -/
def pauseLine (s : SimState) : SimState × ActionResult :=
  ({ s with
      state := OpState.PAUSED
      activeScenario := { s.activeScenario with active := false } },
   { success := true, message := "Production line paused" })

/-- Printable state name, for the interpolated resume message. -/
def stateName : OpState → String
  | OpState.NORMAL => "NORMAL"
  | OpState.DEGRADED => "DEGRADED"
  | OpState.CRITICAL => "CRITICAL"
  | OpState.PAUSED => "PAUSED"

/-- `FactorySimulation.resumeLine`; `now` is the `Date.now()` read for the
scenario-delay anchor. -/
def resumeLine (s : SimState) (now : ℤ) : SimState × ActionResult :=
  if s.state ≠ OpState.PAUSED then
    (s, { success := false, message := "Line is not paused" })
  else if getSensorStatus s SensorType.power = Status.critical ∨
      getSensorStatus s SensorType.pressure = Status.critical ∨
      getSensorStatus s SensorType.temperature = Status.critical then
    (s, { success := false, message := "Cannot resume: Sensors still critical" })
  else
    let st :=
      if CONFIG.THRESHOLD_NORMAL ≤ s.stability then OpState.NORMAL
      else if CONFIG.THRESHOLD_DEGRADED ≤ s.stability then OpState.DEGRADED
      else OpState.CRITICAL
    ({ s with
        state := st
        stableTickCount := 0
        criticalTickCount := 0
        lastScenarioEndTime := now },
     { success := true, message := "Production line resumed (" ++ stateName st ++ ")" })

/-- `FactorySimulation.switchBackupPower`, synchronous part: set the
backup-power flag, reset the now-inactive main battery to 100, report
success. The 2-second delayed effect is `backupPowerDelayed`. -/
def switchBackupPower (s : SimState) : SimState × ActionResult :=
  ({ s with backupPower := true, mainBatteryLevel := 100 },
   { success := true, message := "Backup power activated" })

/-- Body of the 2000 ms `setTimeout` in `switchBackupPower`: snap power to 42
and run the scenario-end routine. -/
def backupPowerDelayed (s : SimState) (now : ℤ) : SimState :=
  endScenarioAndScheduleNext
    { s with sensors := { s.sensors with power := 42 } } now

/-- Hardcoded nominal targets in `gradualRestore`. -/
def nominalTarget : SensorType → ℚ
  | SensorType.pressure => 140
  | SensorType.temperature => 70
  | SensorType.power => 42

/-- One firing of the `gradualRestore` interval before the final one: add the
precomputed step change to the targeted channel. -/
def rampStep (t : SensorType) (stepChange : ℚ) (s : SimState) : SimState :=
  { s with sensors := setSensor s.sensors t (getSensor s.sensors t + stepChange) }

/-- `FactorySimulation.gradualRestore` run to completion: ten interval
firings, each adding `(target - start)/10`, after which the last firing
forces the exact target and invokes `endScenarioAndScheduleNext`. The
`duration` argument only spaces the firings in time. -/
def gradualRestore (s : SimState) (t : SensorType) (_duration : ℤ) (now : ℤ) : SimState :=
  let startValue := getSensor s.sensors t
  let targetValue := nominalTarget t
  let stepChange := (targetValue - startValue) / 10
  let s := (rampStep t stepChange)^[10] s
  endScenarioAndScheduleNext
    { s with sensors := setSensor s.sensors t targetValue } now

/-- `FactorySimulation.increasePressure`, synchronous part (the ramp it
launches is `gradualRestore · pressure 5000`). -/
def increasePressure (s : SimState) : SimState × ActionResult :=
  (s, { success := true, message := "Increasing pressure..." })

/-- `FactorySimulation.decreasePressure`, synchronous part (same ramp as
`increasePressure`). -/
def decreasePressure (s : SimState) : SimState × ActionResult :=
  (s, { success := true, message := "Decreasing pressure..." })

/-- `FactorySimulation.increaseCooling`, synchronous part (the ramp it
launches is `gradualRestore · temperature 10000`). -/
def increaseCooling (s : SimState) : SimState × ActionResult :=
  (s, { success := true, message := "Cooling system engaged..." })

/-- `FactorySimulation.checkAutoStop` (auto-stop is disabled in the shipped
configuration). -/
def checkAutoStop (s : SimState) : SimState :=
  if CONFIG.AUTO_STOP_ENABLED = false then s
  else if s.state = OpState.CRITICAL then
    let s := { s with criticalTickCount := s.criticalTickCount + 1 }
    if CONFIG.AUTO_STOP_CRITICAL_TICKS ≤ s.criticalTickCount then (pauseLine s).1 else s
  else
    { s with criticalTickCount := 0 }

/-- History push at the end of `tick`: append the snapshot entry, then drop
the oldest entry if over capacity. -/
def pushHistory (s : SimState) (now : ℤ) : SimState :=
  let entry : HistEntry :=
    { time := now
      power := s.sensors.power
      pressure := s.sensors.pressure
      temperature := s.sensors.temperature
      stability := s.stability
      state := s.state }
  let h := s.sensorHistory ++ [entry]
  { s with sensorHistory := if CONFIG.MAX_DATA_POINTS < h.length then h.drop 1 else h }

/-- `FactorySimulation.tick`: one period of the simulation clock, with the
wall clock `now` and all random draws explicit. -/
def tick (s : SimState) (now : ℤ) (rScenario : ℚ) (r : RandDraws) : SimState :=
  let s := { s with tickCount := s.tickCount + 1 }
  let elapsed := now - s.startTime
  let s := { s with previousSensors := s.sensors }
  let s := manageScenarios s elapsed now rScenario
  let s := updateSensors s r
  let s := calculateStability s
  let s := updateState s
  let s := checkAutoStop s
  pushHistory s now

/-- The `FactorySimulation` constructor state, with `Date.now()` at
construction passed as `now0`. -/
def initState (now0 : ℤ) : SimState :=
  { state := OpState.NORMAL
    stability := 100
    sensors := { power := 42, pressure := 140, temperature := 70 }
    previousSensors := { power := 42, pressure := 140, temperature := 70 }
    cooling := CONFIG.COOLING_DEFAULT
    backupPower := false
    mainBatteryLevel := 100
    backupBatteryLevel := 100
    batteryRechargeRate := 2
    activeScenario := { type := ScenarioKind.NONE, active := false, tickCount := 0 }
    startTime := now0
    tickCount := 0
    criticalTickCount := 0
    stableTickCount := 0
    lastScenarioEndTime := now0
    scenarioScheduled := false
    sensorHistory := [] }

/-- Claim-side reading of the trend check: some channel is moving further
from nominal relative to the newest history entry (power or pressure
decreasing while below its nominal minimum, or temperature increasing while
above its nominal maximum). -/
def movingFurtherFromNominalB (s : SimState) : Bool :=
  match s.sensorHistory.getLast? with
  | some prev =>
      (decide (s.sensors.power < prev.power) &&
        decide (s.sensors.power < CONFIG.POWER_NOMINAL_MIN)) ||
      (decide (s.sensors.pressure < prev.pressure) &&
        decide (s.sensors.pressure < CONFIG.PRESSURE_NOMINAL_MIN)) ||
      (decide (prev.temperature < s.sensors.temperature) &&
        decide (CONFIG.TEMPERATURE_NOMINAL_MAX < s.sensors.temperature))
  | none => false

/-- Concrete random draws used by witness instantiations. -/
def zeroDraws : RandDraws :=
  { powerDrop := 0, batteryDrain := 0, pressureDrop := 0, tempRise := 0
    powerNoise := 0, tempNoise := 0, pressureNoise := 0 }

/-- A freshly constructed simulation put into PAUSED, used by witnesses. -/
def pausedExample : SimState :=
  { initState 0 with state := OpState.PAUSED }

theorem checkAutoStop_id (s : SimState) : checkAutoStop s = s := by
  simp [checkAutoStop, CONFIG.AUTO_STOP_ENABLED]

theorem pushHistory_state (s : SimState) (now : ℤ) : (pushHistory s now).state = s.state := rfl

theorem calculateStability_state (s : SimState) : (calculateStability s).state = s.state := rfl

theorem updateSensors_state (s : SimState) (r : RandDraws) :
    (updateSensors s r).state = s.state := by
  simp only [updateSensors, clampSensors, applyAmbientNoise, applyScenarioPerturbation,
    rechargeBattery]
  split_ifs <;> rfl

theorem manageScenarios_state (s : SimState) (elapsed now : ℤ) (r : ℚ) :
    (manageScenarios s elapsed now r).state = s.state := by
  simp only [manageScenarios, startRandomScenario]
  split_ifs <;> rfl

theorem updateState_paused_iff (s : SimState) :
    ((updateState s).state = OpState.PAUSED) ↔ s.state = OpState.PAUSED := by
  unfold updateState
  split_ifs with h1 h2 h3 <;> simp_all

theorem tick_state_paused_iff (s : SimState) (now : ℤ) (rS : ℚ) (r : RandDraws) :
    ((tick s now rS r).state = OpState.PAUSED) ↔ s.state = OpState.PAUSED := by
  simp only [tick]
  rw [pushHistory_state, checkAutoStop_id, updateState_paused_iff, calculateStability_state,
    updateSensors_state, manageScenarios_state]

theorem penalty_fold (P : Prop) [Decidable P] (score p : ℚ) :
    (if P then score - p else score) = score - (if P then p else 0) := by
  split_ifs <;> simp

theorem trend_fold (L T : Prop) [Decidable L] [Decidable T] (score p : ℚ) :
    (if L then if T then score - p else score else score)
      = score - (if L ∧ T then p else 0) := by
  split_ifs <;> simp_all

theorem movingFurther_none (s : SimState) (h : s.sensorHistory.getLast? = none) :
    movingFurtherFromNominalB s = false := by
  unfold movingFurtherFromNominalB
  rw [h]

theorem movingFurther_some (s : SimState) (prev : HistEntry)
    (h : s.sensorHistory.getLast? = some prev) :
    movingFurtherFromNominalB s =
      ((decide (s.sensors.power < prev.power) &&
          decide (s.sensors.power < CONFIG.POWER_NOMINAL_MIN)) ||
        (decide (s.sensors.pressure < prev.pressure) &&
          decide (s.sensors.pressure < CONFIG.PRESSURE_NOMINAL_MIN)) ||
        (decide (prev.temperature < s.sensors.temperature) &&
          decide (CONFIG.TEMPERATURE_NOMINAL_MAX < s.sensors.temperature))) := by
  unfold movingFurtherFromNominalB
  rw [h]

/-- C2: the stability score equals 100, minus the warning penalty (10) when
some channel classifies WARNING, minus the critical penalty (25) when some
channel classifies CRITICAL, minus the trend penalty (5) when the history has
at least two entries and some channel is moving further from nominal, clamped
to `[0,100]`; channel classification is by the fixed thresholds of
`getSensorStatus` (high side only for temperature, low side only for power
and pressure). -/
theorem calculateStability_score_formula (s : SimState) :
    (calculateStability s).stability =
      max 0 (min 100 ((100 : ℚ)
        - (if getSensorStatus s SensorType.power = Status.warning ∨
              getSensorStatus s SensorType.pressure = Status.warning ∨
              getSensorStatus s SensorType.temperature = Status.warning
            then CONFIG.PENALTY_WARNING else 0)
        - (if getSensorStatus s SensorType.power = Status.critical ∨
              getSensorStatus s SensorType.pressure = Status.critical ∨
              getSensorStatus s SensorType.temperature = Status.critical
            then CONFIG.PENALTY_CRITICAL else 0)
        - (if 2 ≤ s.sensorHistory.length ∧ movingFurtherFromNominalB s = true
            then CONFIG.PENALTY_TREND else 0))) := by
  simp only [calculateStability]
  cases hL : s.sensorHistory.getLast? with
  | none =>
      rw [ite_self, penalty_fold, penalty_fold]
      simp [movingFurther_none s hL]
  | some prev =>
      rw [trend_fold, penalty_fold, penalty_fold]
      have hT : ((s.sensors.power - prev.power < 0 ∧
            s.sensors.power < CONFIG.POWER_NOMINAL_MIN) ∨
          (s.sensors.pressure - prev.pressure < 0 ∧
            s.sensors.pressure < CONFIG.PRESSURE_NOMINAL_MIN) ∨
          (0 < s.sensors.temperature - prev.temperature ∧
            CONFIG.TEMPERATURE_NOMINAL_MAX < s.sensors.temperature)) ↔
          movingFurtherFromNominalB s = true := by
        rw [movingFurther_some s prev hL]
        simp [sub_neg, sub_pos, or_assoc]
      simp only [hT]

/-- C3: the operating-state update maps the score to NORMAL at 86 and above,
DEGRADED from 71 up to (excluding) 86, CRITICAL below 71, except that from
PAUSED the update changes nothing; across a whole tick the state is PAUSED
afterwards exactly when it was PAUSED before (only `resume_line` exits it). -/
theorem updateState_mapping (s : SimState) (now : ℤ) (rS : ℚ) (r : RandDraws) :
    (updateState s).state =
      (if s.state = OpState.PAUSED then OpState.PAUSED
       else if CONFIG.THRESHOLD_NORMAL ≤ s.stability then OpState.NORMAL
       else if CONFIG.THRESHOLD_DEGRADED ≤ s.stability then OpState.DEGRADED
       else OpState.CRITICAL) ∧
    (s.state = OpState.PAUSED → updateState s = s) ∧
    ((tick s now rS r).state = OpState.PAUSED ↔ s.state = OpState.PAUSED) := by
  refine ⟨?_, ?_, tick_state_paused_iff s now rS r⟩
  · unfold updateState
    split_ifs <;> simp_all
  · intro h
    simp [updateState, h]

/-- Witness for C3 at a concretely paused state. -/
theorem updateState_mapping_witness :
    pausedExample.state = OpState.PAUSED ∧ updateState pausedExample = pausedExample :=
  ⟨rfl, (updateState_mapping pausedExample 0 0 zeroDraws).2.1 rfl⟩

/-- C4: the scenario choice in the source is a uniform pick
(`scenarios[Math.floor(Math.random()*3)]`), not the weighted draw over the
configured weights 0.40 / 0.35 / 0.25: at the draw `r = 0.7` the source
starts OVERHEAT while the configured weighted sampler yields PRESSURE_DRIFT,
so the probability of each kind is 1/3, not its configured weight. -/
theorem chooseScenario_ignores_weights :
    chooseScenario (7/10) = ScenarioKind.OVERHEAT ∧
    (startRandomScenario (initState 0) (7/10)).activeScenario.type = ScenarioKind.OVERHEAT ∧
    specWeightedScenarioChoice (7/10) = ScenarioKind.PRESSURE_DRIFT ∧
    ScenarioKind.OVERHEAT ≠ ScenarioKind.PRESSURE_DRIFT := by
  have hf : ⌊(7 : ℚ) / 10 * 3⌋ = 2 := by
    rw [Int.floor_eq_iff]
    norm_num
  refine ⟨?_, ?_, ?_, by decide⟩
  · simp [chooseScenario, hf]
  · simp [startRandomScenario, chooseScenario, hf]
  · simp only [specWeightedScenarioChoice, CONFIG.SCENARIO_WEIGHT_POWER_SAG,
      CONFIG.SCENARIO_WEIGHT_PRESSURE_DRIFT]
    norm_num

/-- The scenario-record invariant stated by the spec data model:
`active = false` implies the kind is NONE. -/
def scenarioKindInv (s : SimState) : Prop :=
  s.activeScenario.active = false → s.activeScenario.type = ScenarioKind.NONE

/-- A reachable state in which a scenario has just started: draw 0 picks
POWER_SAG in a freshly constructed simulation. -/
def scenarioRunningExample : SimState := startRandomScenario (initState 0) 0

/-- C5 counterexample: pausing the line while the POWER_SAG scenario runs
reaches a state with `active = false` but kind POWER_SAG, violating the
invariant. -/
theorem pauseLine_breaks_scenarioKindInv :
    ¬ scenarioKindInv (pauseLine scenarioRunningExample).1 := by
  intro h
  have hPS : (pauseLine scenarioRunningExample).1.activeScenario.type
      = ScenarioKind.POWER_SAG := by
    simp [pauseLine, scenarioRunningExample, startRandomScenario, chooseScenario]
  have hN := h rfl
  rw [hPS] at hN
  exact ScenarioKind.noConfusion hN

theorem scenarioKindInv_of_eq {a b : SimState} (hab : a.activeScenario = b.activeScenario)
    (hb : scenarioKindInv b) : scenarioKindInv a := by
  unfold scenarioKindInv at hb ⊢
  rw [hab]
  exact hb

theorem pushHistory_scenario (s : SimState) (now : ℤ) :
    (pushHistory s now).activeScenario = s.activeScenario := rfl

theorem calculateStability_scenario (s : SimState) :
    (calculateStability s).activeScenario = s.activeScenario := rfl

theorem updateState_scenario (s : SimState) :
    (updateState s).activeScenario = s.activeScenario := by
  unfold updateState
  split_ifs <;> rfl

theorem updateSensors_scenario (s : SimState) (r : RandDraws) :
    (updateSensors s r).activeScenario = s.activeScenario := by
  simp only [updateSensors, clampSensors, applyAmbientNoise, applyScenarioPerturbation,
    rechargeBattery]
  split_ifs <;> rfl

theorem manageScenarios_inv (s : SimState) (elapsed now : ℤ) (r : ℚ)
    (h : scenarioKindInv s) : scenarioKindInv (manageScenarios s elapsed now r) := by
  unfold scenarioKindInv manageScenarios startRandomScenario at *
  split_ifs <;> simp_all

theorem scenarioKindInv_tick (s : SimState) (now : ℤ) (rS : ℚ) (r : RandDraws)
    (h : scenarioKindInv s) : scenarioKindInv (tick s now rS r) := by
  unfold scenarioKindInv
  simp only [tick]
  rw [pushHistory_scenario, checkAutoStop_id, updateState_scenario, calculateStability_scenario,
    updateSensors_scenario]
  exact manageScenarios_inv _ _ _ _ h

theorem startRandomScenario_inv (s : SimState) (r : ℚ) :
    scenarioKindInv (startRandomScenario s r) := by
  intro h
  simp [startRandomScenario] at h

theorem endScenario_inv (s : SimState) (now : ℤ) :
    scenarioKindInv (endScenarioAndScheduleNext s now) := fun _ => rfl

/-- C5 (amended): every operation except `pause_line` preserves the
invariant `active = false → kind = NONE` — ticks, the per-tick scenario
check, scenario start and end, the delayed-scenario timer, both parts of
`switch_backup_power`, the pressure/cooling actions with their ramp steps and
completions, and `resume_line` — while `pause_line` preserves it only when
the scenario kind is already NONE (it clears `active` but leaves the kind). -/
theorem scenarioKindInv_preserved (s : SimState) (elapsed now dur : ℤ) (rS c : ℚ)
    (r : RandDraws) (t : SensorType) (h : scenarioKindInv s) :
    scenarioKindInv (tick s now rS r) ∧
    scenarioKindInv (manageScenarios s elapsed now rS) ∧
    scenarioKindInv (startRandomScenario s rS) ∧
    scenarioKindInv (endScenarioAndScheduleNext s now) ∧
    scenarioKindInv (scenarioTimerFire s rS) ∧
    scenarioKindInv (switchBackupPower s).1 ∧
    scenarioKindInv (backupPowerDelayed s now) ∧
    scenarioKindInv (increasePressure s).1 ∧
    scenarioKindInv (decreasePressure s).1 ∧
    scenarioKindInv (increaseCooling s).1 ∧
    scenarioKindInv (rampStep t c s) ∧
    scenarioKindInv (gradualRestore s t dur now) ∧
    scenarioKindInv (resumeLine s now).1 ∧
    (s.activeScenario.type = ScenarioKind.NONE → scenarioKindInv (pauseLine s).1) := by
  refine ⟨scenarioKindInv_tick s now rS r h, manageScenarios_inv s elapsed now rS h,
    startRandomScenario_inv s rS, endScenario_inv s now, startRandomScenario_inv _ rS,
    h, endScenario_inv _ now, h, h, h, h, endScenario_inv _ now, ?_, ?_⟩
  · unfold resumeLine
    split_ifs <;> simp_all [scenarioKindInv]
  · intro hk _
    exact hk

/-- Witness for the amended C5 at the freshly constructed state. -/
theorem scenarioKindInv_preserved_witness :
    scenarioKindInv (initState 0) ∧ scenarioKindInv (tick (initState 0) 0 0 zeroDraws) :=
  ⟨fun _ => rfl,
   (scenarioKindInv_preserved (initState 0) 0 0 0 0 0 zeroDraws SensorType.power
      (fun _ => rfl)).1⟩

/-- A reachable paused state with the next-scenario timer armed: a scenario
starts, remediation ends it (arming the timer), then the line is paused. -/
def pausedArmedExample : SimState :=
  (pauseLine (endScenarioAndScheduleNext scenarioRunningExample 0)).1

/-- C9 counterexample: from a reachable PAUSED state with the delayed
next-scenario timer armed, the timer firing flips `activeScenario.active`
from false to true while the state stays PAUSED. -/
theorem scenarioTimer_starts_while_paused :
    pausedArmedExample.state = OpState.PAUSED ∧
    pausedArmedExample.activeScenario.active = false ∧
    (scenarioTimerFire pausedArmedExample 0).state = OpState.PAUSED ∧
    (scenarioTimerFire pausedArmedExample 0).activeScenario.active = true :=
  ⟨rfl, rfl, rfl, rfl⟩

/-- C9 (amended): the per-tick scenario check never starts a scenario while
the state is PAUSED (it leaves the scenario record untouched), but the
delayed next-scenario timer armed by `endScenarioAndScheduleNext` starts one
unconditionally when it fires, even while PAUSED. -/
theorem manageScenarios_paused_no_start (s : SimState) (elapsed now : ℤ) (rS : ℚ)
    (h : s.state = OpState.PAUSED) :
    (manageScenarios s elapsed now rS).activeScenario = s.activeScenario ∧
    (scenarioTimerFire s rS).activeScenario.active = true := by
  refine ⟨?_, rfl⟩
  unfold manageScenarios
  split_ifs <;> rfl

/-- Witness for the amended C9 at a concretely paused state. -/
theorem manageScenarios_paused_no_start_witness :
    (manageScenarios pausedExample 99999 0 0).activeScenario
        = pausedExample.activeScenario ∧
    (scenarioTimerFire pausedExample 0).activeScenario.active = true :=
  manageScenarios_paused_no_start pausedExample 99999 0 0 rfl

/-- C6: `resume_line` fails with "Line is not paused" and mutates nothing
when the state is not PAUSED; fails with "Cannot resume: Sensors still
critical" and mutates nothing when PAUSED with some channel critical;
otherwise succeeds, recomputes the operating state from the current
stability score (bypassing the PAUSED-sticky rule), zeroes the stable and
critical tick counters, and re-anchors the scenario delay. -/
theorem resumeLine_spec (s : SimState) (now : ℤ) :
    (s.state ≠ OpState.PAUSED →
      resumeLine s now = (s, { success := false, message := "Line is not paused" })) ∧
    (s.state = OpState.PAUSED →
      (getSensorStatus s SensorType.power = Status.critical ∨
        getSensorStatus s SensorType.pressure = Status.critical ∨
        getSensorStatus s SensorType.temperature = Status.critical) →
      resumeLine s now =
        (s, { success := false, message := "Cannot resume: Sensors still critical" })) ∧
    (s.state = OpState.PAUSED →
      ¬(getSensorStatus s SensorType.power = Status.critical ∨
        getSensorStatus s SensorType.pressure = Status.critical ∨
        getSensorStatus s SensorType.temperature = Status.critical) →
      (resumeLine s now).2.success = true ∧
      (resumeLine s now).1.state =
        (if CONFIG.THRESHOLD_NORMAL ≤ s.stability then OpState.NORMAL
         else if CONFIG.THRESHOLD_DEGRADED ≤ s.stability then OpState.DEGRADED
         else OpState.CRITICAL) ∧
      (resumeLine s now).1.stableTickCount = 0 ∧
      (resumeLine s now).1.criticalTickCount = 0 ∧
      (resumeLine s now).1.lastScenarioEndTime = now ∧
      (resumeLine s now).1.sensors = s.sensors ∧
      (resumeLine s now).1.stability = s.stability ∧
      (resumeLine s now).1.activeScenario = s.activeScenario) := by
  refine ⟨fun h => ?_, fun h hc => ?_, fun h hc => ?_⟩
  · simp [resumeLine, h]
  · simp [resumeLine, h, hc]
  · simp [resumeLine, h, hc]

/-- A reachable paused state with critical sensors, for the C6 witness. -/
def pausedCriticalExample : SimState :=
  { pausedExample with sensors := { power := 30, pressure := 120, temperature := 90 } }

/-- Witness for C6: all three branches at concrete states. -/
theorem resumeLine_spec_witness :
    resumeLine (initState 0) 5
        = (initState 0, { success := false, message := "Line is not paused" }) ∧
    resumeLine pausedCriticalExample 5
        = (pausedCriticalExample,
           { success := false, message := "Cannot resume: Sensors still critical" }) ∧
    (resumeLine pausedExample 5).2.success = true :=
  ⟨(resumeLine_spec (initState 0) 5).1 (by decide),
   (resumeLine_spec pausedCriticalExample 5).2.1 rfl (by decide),
   ((resumeLine_spec pausedExample 5).2.2 rfl (by decide)).1⟩

theorem getSensor_setSensor (s : Sensors) (t : SensorType) (v : ℚ) :
    getSensor (setSensor s t v) t = v := by
  cases t <;> rfl

theorem rampStep_val (t : SensorType) (c : ℚ) (u : SimState) :
    getSensor (rampStep t c u).sensors t = getSensor u.sensors t + c := by
  cases t <;> rfl

theorem endScenario_sensors (u : SimState) (now : ℤ) :
    (endScenarioAndScheduleNext u now).sensors = u.sensors := rfl

/-- C7: the ramp divides the gap to the fixed nominal target into 10 equal
steps — after `k` firings the channel moved by `k` times one tenth of the
gap — and the run forces pressure to exactly 140 and temperature to exactly
70 whatever the starting value, then invokes the scenario-end-and-reschedule
routine, so the active scenario ends. -/
theorem gradualRestore_spec (s : SimState) (dur now : ℤ) (k : ℕ) (t : SensorType) :
    getSensor (((rampStep t ((nominalTarget t - getSensor s.sensors t) / 10))^[k] s).sensors) t
      = getSensor s.sensors t + k * ((nominalTarget t - getSensor s.sensors t) / 10) ∧
    getSensor (gradualRestore s SensorType.pressure dur now).sensors SensorType.pressure
      = 140 ∧
    getSensor (gradualRestore s SensorType.temperature dur now).sensors SensorType.temperature
      = 70 ∧
    (gradualRestore s t dur now).activeScenario.active = false ∧
    (gradualRestore s t dur now).activeScenario.type = ScenarioKind.NONE := by
  have hIter : ∀ (c : ℚ) (n : ℕ) (u : SimState),
      getSensor (((rampStep t c)^[n] u).sensors) t = getSensor u.sensors t + n * c := by
    intro c n
    induction n with
    | zero => intro u; simp
    | succ m ih =>
        intro u
        rw [Function.iterate_succ_apply, ih, rampStep_val]
        push_cast
        ring
  refine ⟨hIter _ k s, ?_, ?_, rfl, rfl⟩
  · simp only [gradualRestore, endScenario_sensors, getSensor_setSensor, nominalTarget]
  · simp only [gradualRestore, endScenario_sensors, getSensor_setSensor, nominalTarget]

/-- C8: `switch_backup_power` always reports success synchronously, at call
time raises the backup-power flag and resets the main battery to exactly
100, and its 2-second delayed effect sets power to exactly 42 and runs the
scenario-end routine, deactivating the scenario. -/
theorem switchBackupPower_spec (s sLater : SimState) (now : ℤ) :
    (switchBackupPower s).2 = { success := true, message := "Backup power activated" } ∧
    (switchBackupPower s).1.backupPower = true ∧
    (switchBackupPower s).1.mainBatteryLevel = 100 ∧
    (backupPowerDelayed sLater now).sensors.power = 42 ∧
    (backupPowerDelayed sLater now).activeScenario.active = false ∧
    (backupPowerDelayed sLater now).activeScenario.type = ScenarioKind.NONE :=
  ⟨rfl, rfl, rfl, rfl, rfl, rfl⟩

/-- C10: `pause_line` sets the operating state to PAUSED and clears the
scenario active flag, and changes nothing else — sensors, previous sensors,
cooling, backup-power flag, both battery levels, recharge rate, scenario
kind and tick count, stability, all counters, timestamps, the scheduled
flag and the history all keep their values — while reporting success. -/
theorem pauseLine_frame (s : SimState) :
    (pauseLine s).1.state = OpState.PAUSED ∧
    (pauseLine s).1.activeScenario.active = false ∧
    (pauseLine s).2 = { success := true, message := "Production line paused" } ∧
    (pauseLine s).1.sensors = s.sensors ∧
    (pauseLine s).1.previousSensors = s.previousSensors ∧
    (pauseLine s).1.cooling = s.cooling ∧
    (pauseLine s).1.backupPower = s.backupPower ∧
    (pauseLine s).1.mainBatteryLevel = s.mainBatteryLevel ∧
    (pauseLine s).1.backupBatteryLevel = s.backupBatteryLevel ∧
    (pauseLine s).1.batteryRechargeRate = s.batteryRechargeRate ∧
    (pauseLine s).1.activeScenario.type = s.activeScenario.type ∧
    (pauseLine s).1.activeScenario.tickCount = s.activeScenario.tickCount ∧
    (pauseLine s).1.stability = s.stability ∧
    (pauseLine s).1.startTime = s.startTime ∧
    (pauseLine s).1.tickCount = s.tickCount ∧
    (pauseLine s).1.criticalTickCount = s.criticalTickCount ∧
    (pauseLine s).1.stableTickCount = s.stableTickCount ∧
    (pauseLine s).1.lastScenarioEndTime = s.lastScenarioEndTime ∧
    (pauseLine s).1.scenarioScheduled = s.scenarioScheduled ∧
    (pauseLine s).1.sensorHistory = s.sensorHistory :=
  ⟨rfl, rfl, rfl, rfl, rfl, rfl, rfl, rfl, rfl, rfl, rfl, rfl, rfl, rfl, rfl, rfl, rfl, rfl,
   rfl, rfl⟩
